import Mathlib

/-!
Shallow embedding of the watchtower update core.

Source files embedded:
* `actions/update.go` (the update pass: classification, dependency handling,
  the two restart strategies, image cleanup and the returned metric), and
* `pkg/api/update/update.go` (the HTTP trigger handler and its single-slot
  channel gate).

External collaborators (the container-runtime client, the lifecycle hook
executor and the dependency sorter live in packages of the repository that
are not embedded here) are modelled as an environment of pure functions whose
results drive the control flow exactly where the source consults them.
Side-effecting client calls made by the pass (stop, start, rename,
remove-image) are recorded in an explicit trace.
-/

namespace Watchtower

/-- A container record as the pass sees it.  `name`, `imageID`, `links`,
`isMonitorOnly` and `isWatchtower` are the observable attributes read from the
runtime; `Stale` and `LinkedToRestarting` are the two fields the pass writes
(`containers[i].Stale = stale` in the classification loop, and the
`LinkedToRestarting` assignment in `checkDependencies`). -/
structure Container where
  name : String
  imageID : String
  links : List String
  isMonitorOnly : Bool
  isWatchtower : Bool
  Stale : Bool
  LinkedToRestarting : Bool
deriving DecidableEq

/-- Method `Container.ToRestart` from pkg/container: `Stale || LinkedToRestarting`. -/
def Container.ToRestart (c : Container) : Bool :=
  c.Stale || c.LinkedToRestarting

/-- Structure `types.UpdateParams` restricted to the fields the embedded code reads.
`Filter` and `Timeout` are opaque arguments forwarded to the client and are
absorbed into the environment's `listContainers` and `stopContainer`. -/
structure UpdateParams where
  noRestart : Bool
  monitorOnly : Bool
  rollingRestart : Bool
  cleanup : Bool
  lifecycleHooks : Bool
deriving DecidableEq

/-- The metric returned by a pass (`pkg/metrics.Metric`): three Go `int`
fields, so all three are modelled as `Int` (the code performs subtraction on
`Updated` with no clamp). -/
structure Metric where
  Scanned : Int
  Updated : Int
  Failed : Int
deriving DecidableEq

/-- One recorded call against the runtime client. -/
inductive Call where
  | stop (c : Container)
  | start (c : Container)
  | rename (c : Container)
  | removeImage (id : String)
deriving DecidableEq

/-- Did the fallible operation succeed? (Go: `err == nil`.) -/
def exceptOk {ε α : Type} : Except ε α → Bool
  | .ok _ => true
  | .error _ => false

/-- The environment: outcomes of every external call the pass makes.  Each
field corresponds to one operation of the runtime client / lifecycle executor
/ sorter; the pass consults it exactly where the Go code calls the
collaborator.  `sortByDependencies` stands for `sorter.SortByDependencies`,
which lives outside the embedded sources: the pass only propagates its error
or continues with its output. -/
structure Env where
  listContainers : Except String (List Container)
  isContainerStale : Container → Except String Bool
  verifyConfiguration : Container → Except String Unit
  stopContainer : Container → Except String Unit
  startContainer : Container → Except String String
  renameContainer : Container → Except String Unit
  preUpdate : Container → Except String Unit
  sortByDependencies : List Container → Except String (List Container)

/-- The classification step of the loop body in `Update` (lines 33-61 of
actions/update.go) for one container: probes staleness, verifies the
configuration when `shouldUpdate`, and on any error zeroes `Stale`.  Returns
the container with its `Stale` field written through, and whether the
classification errored (the `err != nil` branch that increments
`staleCheckFailed` and `metric.Failed`). -/
def classifyContainer (env : Env) (params : UpdateParams) (c : Container) :
    Container × Bool :=
  match env.isContainerStale c with
  | .error _ => ({ c with Stale := false }, true)
  | .ok stale =>
    let shouldUpdate := stale && !params.noRestart && !params.monitorOnly
      && !c.isMonitorOnly
    if shouldUpdate then
      match env.verifyConfiguration c with
      | .error _ => ({ c with Stale := false }, true)
      | .ok _ => ({ c with Stale := stale }, false)
    else ({ c with Stale := stale }, false)

/-- The whole classification loop: returns the rewritten container list, the
accumulated `staleCount` and the accumulated `staleCheckFailed`. -/
def classifyAll (env : Env) (params : UpdateParams) :
    List Container → List Container × Nat × Nat
  | [] => ([], 0, 0)
  | c :: rest =>
    let p := classifyContainer env params c
    let r := classifyAll env params rest
    (p.1 :: r.1,
     (if p.1.Stale then 1 else 0) + r.2.1,
     (if p.2 then 1 else 0) + r.2.2)

/-- The per-copy body of one `checkDependencies` loop iteration: if the copy
`c` is not already to-restart, scan its links for a peer in the snapshot that
is to-restart and set `LinkedToRestarting` on the copy. -/
def checkDependenciesCopy (containers : List Container) (c : Container) :
    Container :=
  if c.ToRestart then c
  else if c.links.any (fun linkName =>
      containers.any (fun cand => cand.name == linkName && cand.ToRestart))
  then { c with LinkedToRestarting := true }
  else c

/-- Function `checkDependencies` from actions/update.go.  The loop
`for _, c := range containers` binds `c` to a copy of each slice element
(`container.Container` is a value struct — compare line 56,
`containers[i].Stale = stale`, where the same file writes through the index
instead); the assignment `c.LinkedToRestarting = true` on line 219 therefore
mutates only the iteration-local copy, which is discarded, and the slice the
caller passed is never written.  Each iteration computes
`checkDependenciesCopy containers c` and throws it away, so the function's
observable effect is to leave the list unchanged. -/
def checkDependencies (containers : List Container) : List Container :=
  containers

/-- The `containersToUpdate` construction in `Update` (lines 72-79): empty
when the pass is monitor-only, otherwise the post-`checkDependencies` list
with per-container monitor-only records filtered out. -/
def updateTargets (params : UpdateParams) (sorted : List Container) :
    List Container :=
  if params.monitorOnly then []
  else (checkDependencies sorted).filter (fun c => !c.isMonitorOnly)

/-- Function `stopStaleContainer`: skip the watchtower container and non-to-restart
containers; run the pre-update hook when enabled (a hook error skips the stop
and is returned); otherwise invoke the client's stop.  The trace records the
stop call whether or not it succeeds. -/
def stopStaleContainer (env : Env) (params : UpdateParams) (c : Container) :
    Except String Unit × List Call :=
  if c.isWatchtower then (.ok (), [])
  else if !c.ToRestart then (.ok (), [])
  else
    match (if params.lifecycleHooks then env.preUpdate c else .ok ()) with
    | .error e => (.error e, [])
    | .ok _ =>
      match env.stopContainer c with
      | .error e => (.error e, [Call.stop c])
      | .ok _ => (.ok (), [Call.stop c])

/-- Function `restartStaleContainer`: a watchtower container is first renamed (a
rename failure is logged and the restart abandoned with a `nil` error);
unless `noRestart`, the client's start is invoked and its error returned.
The post-update lifecycle hook has no effect on control flow or on the
recorded client calls and is omitted. -/
def restartStaleContainer (env : Env) (params : UpdateParams) (c : Container) :
    Except String Unit × List Call :=
  match (if c.isWatchtower then
          match env.renameContainer c with
          | .error _ => none
          | .ok _ => some [Call.rename c]
        else some ([] : List Call)) with
  | none => (.ok (), [Call.rename c])
  | some t =>
    if params.noRestart then (.ok (), t)
    else
      match env.startContainer c with
      | .error e => (.error e, t ++ [Call.start c])
      | .ok _ => (.ok (), t ++ [Call.start c])

/-- Function `cleanupImages`: one remove-image call per distinct collected image ID
(the Go code ranges over a `map[string]bool`); removal errors are logged and
ignored, so only the calls themselves are observable. -/
def cleanupImages (ids : List String) : List Call :=
  ids.dedup.map Call.removeImage

/-- The loop of `performRollingRestart` over the (already reversed) container
list: for each to-restart container, stop then immediately restart, counting
one failure for each erroring step, and collect its image ID. -/
def rollingLoop (env : Env) (params : UpdateParams) :
    List Container → Nat × List Call × List String
  | [] => (0, [], [])
  | c :: rest =>
    let r := rollingLoop env params rest
    if c.ToRestart then
      let s1 := stopStaleContainer env params c
      let s2 := restartStaleContainer env params c
      (((if exceptOk s1.1 then 0 else 1) + (if exceptOk s2.1 then 0 else 1))
         + r.1,
       s1.2 ++ s2.2 ++ r.2.1,
       c.imageID :: r.2.2)
    else r

/-- Function `performRollingRestart`: iterate in reverse order, then clean up the
collected image IDs when `cleanup` is set. -/
def performRollingRestart (env : Env) (params : UpdateParams)
    (containers : List Container) : Nat × List Call :=
  let r := rollingLoop env params containers.reverse
  if params.cleanup then (r.1, r.2.1 ++ cleanupImages r.2.2)
  else (r.1, r.2.1)

/-- The loop of `stopContainersInReversedOrder` over the (already reversed)
container list: one failure per erroring `stopStaleContainer`. -/
def stopLoop (env : Env) (params : UpdateParams) :
    List Container → Nat × List Call
  | [] => (0, [])
  | c :: rest =>
    let s := stopStaleContainer env params c
    let r := stopLoop env params rest
    ((if exceptOk s.1 then 0 else 1) + r.1, s.2 ++ r.2)

/-- Function `stopContainersInReversedOrder`. -/
def stopContainersInReversedOrder (env : Env) (params : UpdateParams)
    (containers : List Container) : Nat × List Call :=
  stopLoop env params containers.reverse

/-- The loop of `restartContainersInSortedOrder`: for each to-restart
container, attempt the restart (counting a failure on error) and collect its
image ID — collected whether or not a start was actually attempted. -/
def restartLoop (env : Env) (params : UpdateParams) :
    List Container → Nat × List Call × List String
  | [] => (0, [], [])
  | c :: rest =>
    if c.ToRestart then
      let s := restartStaleContainer env params c
      let r := restartLoop env params rest
      ((if exceptOk s.1 then 0 else 1) + r.1,
       s.2 ++ r.2.1,
       c.imageID :: r.2.2)
    else restartLoop env params rest

/-- Function `restartContainersInSortedOrder`: forward iteration, then image cleanup
of the collected IDs when `cleanup` is set. -/
def restartContainersInSortedOrder (env : Env) (params : UpdateParams)
    (containers : List Container) : Nat × List Call :=
  let r := restartLoop env params containers
  if params.cleanup then (r.1, r.2.1 ++ cleanupImages r.2.2)
  else (r.1, r.2.1)

/-- The strategy selection of `Update` (lines 81-86): rolling restart, or the
two-phase stop-then-restart, with the failure counts added into the metric. -/
def restartPhase (env : Env) (params : UpdateParams)
    (targets : List Container) : Nat × List Call :=
  if params.rollingRestart then performRollingRestart env params targets
  else
    let s := stopContainersInReversedOrder env params targets
    let r := restartContainersInSortedOrder env params targets
    (s.1 + r.1, s.2 ++ r.2)

/-- Function `Update` from actions/update.go.  List errors and sort errors abort the
pass with the error and no metric (`return nil, err`); otherwise the metric
is assembled with `Scanned` = post-sort length, `Failed` = classification
failures plus restart-phase failures, and
`Updated = staleCount - (Failed - staleCheckFailed)` with no clamping.  The
pre/post-check lifecycle hooks alter no observable state of the model and are
omitted. -/
def Update (env : Env) (params : UpdateParams) :
    Except String (Metric × List Call) :=
  match env.listContainers with
  | .error e => .error e
  | .ok containers0 =>
    let cl := classifyAll env params containers0
    match env.sortByDependencies cl.1 with
    | .error e => .error e
    | .ok sorted =>
      let rp := restartPhase env params (updateTargets params sorted)
      let failed : Int := (cl.2.2 : Int) + (rp.1 : Int)
      .ok ({ Scanned := (sorted.length : Int),
             Updated := (cl.2.1 : Int) - (failed - (cl.2.2 : Int)),
             Failed := failed }, rp.2)

/-- Classification error, in the words of the spec: the staleness probe
errored, or it succeeded, the container should update, and configuration
verification errored. -/
def classificationErrored (env : Env) (params : UpdateParams)
    (c : Container) : Bool :=
  match env.isContainerStale c with
  | .error _ => true
  | .ok stale =>
    if stale && !params.noRestart && !params.monitorOnly && !c.isMonitorOnly
    then !exceptOk (env.verifyConfiguration c)
    else false

/-- A container counted into `staleCount`: its classification did not error
and the staleness probe answered `true`. -/
def countedStale (env : Env) (params : UpdateParams) (c : Container) : Bool :=
  !classificationErrored env params c &&
    (match env.isContainerStale c with
     | .ok stale => stale
     | .error _ => false)

/-- Count `staleCheckFailed` as the claims define it: the number of containers in
the snapshot whose staleness probe or configuration verification errored. -/
def staleCheckFailedOf (env : Env) (params : UpdateParams)
    (cs : List Container) : Nat :=
  cs.countP (fun c => classificationErrored env params c)

/-- Count `staleCount` as the claims define it: the number of containers classified
stale (classification-errored containers excluded). -/
def staleCountOf (env : Env) (params : UpdateParams)
    (cs : List Container) : Nat :=
  cs.countP (fun c => countedStale env params c)

end Watchtower

namespace Watchtower.Api

/-!
Embedding of pkg/api/update/update.go: the package-level channel gate, the
handler factory `New`, and `Handler.Handle`.

The `net/http` `ResponseWriter` is modelled by its documented semantics: the
first `Write` commits an implicit `200 OK` status line if `WriteHeader` has
not been called yet, and any `WriteHeader` after the status line is committed
is ignored (the "superfluous response.WriteHeader call" case).
-/

/-- A buffered Go channel of booleans: a capacity and the values currently
buffered, oldest first. -/
structure Chan where
  capacity : Nat
  buf : List Bool
deriving DecidableEq

/-- Non-blocking receive, as in a `select` case: the oldest buffered value if
one is present. -/
def Chan.tryRecv : Chan → Option (Bool × Chan)
  | ⟨_, []⟩ => none
  | ⟨cap, v :: rest⟩ => some (v, ⟨cap, rest⟩)

/-- Send into the channel buffer (the handler only sends the token back into
the slot it just emptied, so room is always available). -/
def Chan.send (ch : Chan) (v : Bool) : Chan :=
  ⟨ch.capacity, ch.buf ++ [v]⟩

/-- The gate installed by `New` when no channel is injected:
`make(chan bool, 1)` followed by `lock <- true`. -/
def freshGate : Chan :=
  { capacity := 1, buf := [true] }

/-- The package-level mutable state of the api/update package: the single
`lock` variable shared by every Handler. -/
structure ApiState where
  lock : Chan
deriving DecidableEq

/-- A `Handler` value: the update function (identified abstractly by a tag,
its behaviour is outside the package) and the route path. -/
structure Handler where
  fnId : Nat
  path : String
deriving DecidableEq

/-- Factory `New`: install the injected channel as the package-level lock, or create
a fresh single-slot gate already holding its token, and return the handler. -/
def New (fnId : Nat) (updateLock : Option Chan) (_st : ApiState) :
    ApiState × Handler :=
  match updateLock with
  | some ch => ({ lock := ch }, { fnId := fnId, path := "/v1/update" })
  | none => ({ lock := freshGate }, { fnId := fnId, path := "/v1/update" })

/-- The decoded JSON request body. -/
structure UpdateRequestBody where
  AiDriverTag : String
  DaemonTag : String
deriving DecidableEq

/-- The tag map built by `Handle` from a decoded body. -/
def tagsOf (urb : UpdateRequestBody) : List (String × String) :=
  [("aidriver", urb.AiDriverTag), ("daemon", urb.DaemonTag)]

/-- The `net/http` response writer: the committed status line, if any, and
the body text written so far. -/
structure ResponseWriter where
  committed : Option Nat
  body : List String
deriving DecidableEq

/-- The writer before the handler runs. -/
def ResponseWriter.init : ResponseWriter :=
  { committed := none, body := [] }

/-- A `Write` (here via `fmt.Fprintln`): commits an implicit 200 when no
status line has been sent yet, then appends the text. -/
def ResponseWriter.write (w : ResponseWriter) (s : String) : ResponseWriter :=
  { committed := some (w.committed.getD 200), body := w.body ++ [s] }

/-- Method `WriteHeader code`: sends the status line only if none is committed yet;
otherwise it is a no-op. -/
def ResponseWriter.writeHeader (w : ResponseWriter) (code : Nat) :
    ResponseWriter :=
  { w with committed := some (w.committed.getD code) }

/-- The status the response finally carries: the committed status line, or
the implicit 200 sent when the handler returns without writing. -/
def ResponseWriter.status (w : ResponseWriter) : Nat :=
  w.committed.getD 200

/-- The observable outcome of one complete (sequential) `Handle` invocation:
the response, the tag map passed to the update function if it was invoked,
and the lock after the invocation finished. -/
structure HandleOutcome where
  response : ResponseWriter
  invoked : Option (List (String × String))
  lockAfter : Chan
deriving DecidableEq

/-- Function `Handler.Handle`, run to completion in isolation on the current lock.
Decode failure writes the diagnostic line first and only then calls
`WriteHeader(http.StatusBadRequest)` — too late, the implicit 200 is already
committed — and returns without touching the gate.  On a decoded body the
`select` either takes the token, runs the update function and sends the token
back (the deferred send), or hits `default` and drops the request. -/
def Handle (lock : Chan) (body : Option UpdateRequestBody) : HandleOutcome :=
  match body with
  | none =>
    { response :=
        (ResponseWriter.init.write "Failed to load request body").writeHeader
          400,
      invoked := none,
      lockAfter := lock }
  | some urb =>
    match lock.tryRecv with
    | some (v, lock1) =>
      { response := ResponseWriter.init,
        invoked := some (tagsOf urb),
        lockAfter := lock1.send v }
    | none =>
      { response := ResponseWriter.init,
        invoked := none,
        lockAfter := lock }

/-- Function `Handle` as invoked through a handler instance against the package
state: the gate consulted is the package-level `lock`, not anything stored in
the handler, so every handler created earlier gates on whatever channel the
most recent `New` installed. -/
def HandleSt (st : ApiState) (_h : Handler) (body : Option UpdateRequestBody) :
    HandleOutcome × ApiState :=
  let out := Handle st.lock body
  (out, { lock := out.lockAfter })

/-- The state of the trigger gate under concurrent invocations: whether the
token is buffered in the channel, and how many invocations are currently
inside the guarded region (executing the update function). -/
structure GateState where
  token : Bool
  running : Nat
deriving DecidableEq

/-- The gate created by `New(fn, nil)`: token present, nobody running. -/
def gateInit : GateState :=
  { token := true, running := 0 }

/-- The kinds of atomic gate events an invocation can perform. -/
inductive GateEvent where
  | enter
  | drop
  | exit
deriving DecidableEq

/-- One atomic event of the gate protocol in `Handler.Handle`.
`enter` is the `select` case receiving from the channel (only enabled when
the token is buffered); `drop` is the `default` branch (only taken when the
channel is empty — a ready receive case wins over `default`), which changes
nothing and runs nothing; `exit` is the completion of a pass, whose deferred
`lock <- chanValue` puts the token back unconditionally — it runs both on
normal return and on panic. -/
inductive gateStep : GateState → GateEvent → GateState → Prop
  | enter (r : Nat) : gateStep ⟨true, r⟩ GateEvent.enter ⟨false, r + 1⟩
  | drop (r : Nat) : gateStep ⟨false, r⟩ GateEvent.drop ⟨false, r⟩
  | exit (t : Bool) (r : Nat) : gateStep ⟨t, r + 1⟩ GateEvent.exit ⟨true, r⟩

/-- Gate states reachable from the freshly created gate by any interleaving
of attempt-enters, drops and completions. -/
inductive GateReachable : GateState → Prop
  | init : GateReachable gateInit
  | step {s s' : GateState} {e : GateEvent} :
      GateReachable s → gateStep s e s' → GateReachable s'

/-- In every reachable gate state, the buffered token and the invocations
inside the guarded region account for exactly one permit. -/
theorem gate_invariant {s : GateState} (h : GateReachable s) :
    s.running + (if s.token then 1 else 0) = 1 := by
  induction h with
  | init => simp [gateInit]
  | step _ hstep ih =>
    cases hstep with
    | enter r => simp at ih ⊢; omega
    | drop r => simpa using ih
    | exit t r => cases t <;> simp_all

/-- C3: any number of invocations may attempt-enter concurrently, but in
every reachable gate state at most one invocation is inside the guarded
region executing the update function; a `drop` event (the `select` default,
taken by an invocation that finds the token absent) changes nothing and
happens only with the token absent; an `enter` event takes the buffered
token; and an `exit` event — the deferred, unconditional token send that runs
whether the pass returns normally or panics — puts the token back while the
running count decreases by one. -/
theorem C3_trigger_gate_mutual_exclusion :
    (∀ s : GateState, GateReachable s → s.running ≤ 1) ∧
    (∀ s s' : GateState, gateStep s GateEvent.drop s' →
      s' = s ∧ s.token = false) ∧
    (∀ s s' : GateState, gateStep s GateEvent.enter s' →
      s.token = true ∧ s'.token = false ∧ s'.running = s.running + 1) ∧
    (∀ s s' : GateState, gateStep s GateEvent.exit s' →
      s'.token = true ∧ s.running = s'.running + 1) := by
  refine ⟨?_, ?_, ?_, ?_⟩
  · intro s hs
    have h := gate_invariant hs
    by_cases ht : s.token <;> simp [ht] at h <;> omega
  · intro s s' h
    cases h
    exact ⟨rfl, rfl⟩
  · intro s s' h
    cases h
    exact ⟨rfl, rfl, rfl⟩
  · intro s s' h
    cases h
    exact ⟨rfl, rfl⟩

/-- Witness for C3: the state reached after one accepted attempt-enter is
reachable and has at most one running invocation. -/
theorem C3_trigger_gate_mutual_exclusion_witness :
    ({ token := false, running := 1 } : GateState).running ≤ 1 :=
  C3_trigger_gate_mutual_exclusion.1 { token := false, running := 1 }
    (GateReachable.step GateReachable.init (gateStep.enter 0))

/-- C9 (code bug): on a request whose body fails to decode, `Handle` writes
the diagnostic line with `fmt.Fprintln` before calling
`WriteHeader(http.StatusBadRequest)`; the first write commits an implicit
`200 OK` status line, so the later `WriteHeader(400)` is ignored and the
response carries status 200, not the claimed 400.  The diagnostic text is
written and the update function is not invoked, as the claim states. -/
theorem C9_decode_failure_status :
    (Handle freshGate none).response.status = 200 ∧
    (Handle freshGate none).response.body = ["Failed to load request body"] ∧
    (Handle freshGate none).invoked = none ∧
    (Handle freshGate none).lockAfter = freshGate :=
  ⟨rfl, rfl, rfl, rfl⟩

/-- C10: the gate is a single package-level variable: `New` with an injected
channel makes it the gate for every handler (whatever state, and whichever
handler instance, existed before), `New` with nil installs a fresh single
slot gate already holding its token, and the first attempt-enter on the
fresh gate succeeds. -/
theorem C10_package_level_gate :
    (∀ fnId : Nat, ∀ g : Chan, ∀ st : ApiState,
      ((New fnId (some g) st).1).lock = g) ∧
    (∀ fnId : Nat, ∀ st : ApiState, ((New fnId none st).1).lock = freshGate) ∧
    freshGate.capacity = 1 ∧ freshGate.buf = [true] ∧
    (∀ urb : UpdateRequestBody,
      (Handle freshGate (some urb)).invoked = some (tagsOf urb)) ∧
    (∀ fnId : Nat, ∀ g : Chan, ∀ st : ApiState, ∀ h : Handler,
      ∀ body : Option UpdateRequestBody,
      (HandleSt ((New fnId (some g) st).1) h body).1 = Handle g body) :=
  ⟨fun _ _ _ => rfl, fun _ _ => rfl, rfl, rfl, fun _ => rfl,
   fun _ _ _ _ _ => rfl⟩

end Watchtower.Api

namespace Watchtower

/-- The classification-error flag returned by `classifyContainer` is exactly
the declarative `classificationErrored` predicate. -/
theorem classifyContainer_errored (env : Env) (params : UpdateParams)
    (c : Container) :
    (classifyContainer env params c).2 = classificationErrored env params c := by
  unfold classifyContainer classificationErrored
  cases h : env.isContainerStale c with
  | error e => rfl
  | ok stale =>
    by_cases hs : (stale && !params.noRestart && !params.monitorOnly
        && !c.isMonitorOnly) = true
    · simp only [hs, if_true]
      cases hv : env.verifyConfiguration c <;> simp [exceptOk]
    · simp only [Bool.not_eq_true] at hs
      simp [hs]

/-- The `Stale` field written by `classifyContainer` is exactly the
declarative `countedStale` predicate. -/
theorem classifyContainer_stale (env : Env) (params : UpdateParams)
    (c : Container) :
    (classifyContainer env params c).1.Stale = countedStale env params c := by
  unfold classifyContainer countedStale classificationErrored
  cases h : env.isContainerStale c with
  | error e => rfl
  | ok stale =>
    by_cases hs : (stale && !params.noRestart && !params.monitorOnly
        && !c.isMonitorOnly) = true
    · simp only [Bool.and_eq_true] at hs
      simp only [hs.1.1.1, hs.1.1.2, hs.1.2, hs.2, Bool.and_self, if_true]
      cases hv : env.verifyConfiguration c <;> simp [exceptOk, hs.1.1.1]
    · simp only [Bool.not_eq_true] at hs
      simp [hs]

/-- The `staleCount` accumulator of the classification loop counts exactly
the containers classified stale. -/
theorem classifyAll_staleCount (env : Env) (params : UpdateParams)
    (cs : List Container) :
    (classifyAll env params cs).2.1 = staleCountOf env params cs := by
  induction cs with
  | nil => rfl
  | cons c rest ih =>
    simp only [classifyAll, staleCountOf, List.countP_cons] at *
    rw [classifyContainer_stale, ih]
    by_cases h : countedStale env params c = true <;> simp [h] <;> omega

/-- The `staleCheckFailed` accumulator of the classification loop counts
exactly the containers whose classification errored. -/
theorem classifyAll_staleCheckFailed (env : Env) (params : UpdateParams)
    (cs : List Container) :
    (classifyAll env params cs).2.2 = staleCheckFailedOf env params cs := by
  induction cs with
  | nil => rfl
  | cons c rest ih =>
    simp only [classifyAll, staleCheckFailedOf, List.countP_cons] at *
    rw [classifyContainer_errored, ih]
    by_cases h : classificationErrored env params c = true <;> simp [h] <;> omega

/-- Characterisation of a pass that returned a metric: the snapshot listing
and the sort both succeeded, and the metric fields and the call trace are
the ones `Update` assembles. -/
theorem update_ok_elim {env : Env} {params : UpdateParams} {m : Metric}
    {trace : List Call} (h : Update env params = .ok (m, trace)) :
    ∃ cs sorted, env.listContainers = .ok cs ∧
      env.sortByDependencies (classifyAll env params cs).1 = .ok sorted ∧
      m.Scanned = (sorted.length : Int) ∧
      m.Failed = ((classifyAll env params cs).2.2 : Int)
        + ((restartPhase env params (updateTargets params sorted)).1 : Int) ∧
      m.Updated = ((classifyAll env params cs).2.1 : Int)
        - (m.Failed - ((classifyAll env params cs).2.2 : Int)) ∧
      trace = (restartPhase env params (updateTargets params sorted)).2 := by
  unfold Update at h
  cases hl : env.listContainers with
  | error e => rw [hl] at h; exact absurd h (by simp)
  | ok cs =>
    rw [hl] at h
    simp only at h
    cases hs : env.sortByDependencies (classifyAll env params cs).1 with
    | error e => rw [hs] at h; exact absurd h (by simp)
    | ok sorted =>
      rw [hs] at h
      simp only [Except.ok.injEq, Prod.mk.injEq] at h
      obtain ⟨hm, ht⟩ := h
      subst hm
      exact ⟨cs, sorted, rfl, hs, rfl, rfl, rfl, ht.symm⟩

/-- Shared helper: the metric identity of a completed pass, phrased with the
declarative counts over the listed snapshot. -/
theorem update_identity_helper {env : Env} {params : UpdateParams}
    {cs : List Container} {m : Metric} {trace : List Call}
    (hl : env.listContainers = .ok cs)
    (h : Update env params = .ok (m, trace)) :
    m.Updated = (staleCountOf env params cs : Int)
      - (m.Failed - (staleCheckFailedOf env params cs : Int)) := by
  obtain ⟨cs', sorted, hl', hs, hsc, hf, hu, ht⟩ := update_ok_elim h
  rw [hl] at hl'
  injection hl' with hcs
  subst hcs
  rw [hu, classifyAll_staleCount, classifyAll_staleCheckFailed]

end Watchtower

namespace Watchtower

/-- A plain container used by the C1 witness pass. -/
def c1w : Container :=
  { name := "A", imageID := "imgA", links := [], isMonitorOnly := false,
    isWatchtower := false, Stale := false, LinkedToRestarting := false }

/-- A benign environment for the C1 witness: one container, nothing stale,
every client call succeeds, the sorter returns its input. -/
def env1 : Env :=
  { listContainers := .ok [c1w],
    isContainerStale := fun _ => .ok false,
    verifyConfiguration := fun _ => .ok (),
    stopContainer := fun _ => .ok (),
    startContainer := fun _ => .ok "new",
    renameContainer := fun _ => .ok (),
    preUpdate := fun _ => .ok (),
    sortByDependencies := fun l => .ok l }

/-- Default pass parameters: two-phase strategy, no options set. -/
def p1 : UpdateParams :=
  { noRestart := false, monitorOnly := false, rollingRestart := false,
    cleanup := false, lifecycleHooks := false }

/-- C1: for every pass in which Update returns a metric, the returned metric
satisfies `updated = staleCount - (failed - staleCheckFailed)`, where
`staleCheckFailed` counts the containers of the listed snapshot whose
staleness probe or configuration verification errored and `staleCount` counts
the containers classified stale (errored ones excluded). -/
theorem C1_update_metric_identity (env : Env) (params : UpdateParams)
    (cs : List Container) (m : Metric) (trace : List Call)
    (hl : env.listContainers = .ok cs)
    (h : Update env params = .ok (m, trace)) :
    m.Updated = (staleCountOf env params cs : Int)
      - (m.Failed - (staleCheckFailedOf env params cs : Int)) :=
  update_identity_helper hl h

/-- Witness for C1: a concrete one-container pass returning
`scanned = 1, updated = 0, failed = 0`. -/
theorem C1_update_metric_identity_witness :
    ({ Scanned := 1, Updated := 0, Failed := 0 } : Metric).Updated
      = (staleCountOf env1 p1 [c1w] : Int)
        - (({ Scanned := 1, Updated := 0, Failed := 0 } : Metric).Failed
          - (staleCheckFailedOf env1 p1 [c1w] : Int)) :=
  C1_update_metric_identity env1 p1 [c1w]
    { Scanned := 1, Updated := 0, Failed := 0 } [] rfl rfl

/-- The container of the C2 counterexample pass, as listed. -/
def c2a : Container :=
  { name := "A", imageID := "imgA", links := [], isMonitorOnly := false,
    isWatchtower := false, Stale := false, LinkedToRestarting := false }

/-- The same container after classification marked it stale. -/
def c2s : Container :=
  { c2a with Stale := true }

/-- Environment for the C2 counterexample: one stale container whose stop and
start both fail. -/
def env2 : Env :=
  { listContainers := .ok [c2a],
    isContainerStale := fun _ => .ok true,
    verifyConfiguration := fun _ => .ok (),
    stopContainer := fun _ => .error "stop failed",
    startContainer := fun _ => .error "start failed",
    renameContainer := fun _ => .ok (),
    preUpdate := fun _ => .ok (),
    sortByDependencies := fun l => .ok l }

/-- Rolling-restart parameters for the C2 counterexample. -/
def p2 : UpdateParams :=
  { noRestart := false, monitorOnly := false, rollingRestart := true,
    cleanup := false, lifecycleHooks := false }

/-- Counterexample to C2: in a rolling pass with one stale container whose
stop and start both fail, the container is counted failed twice while
`staleCount = 1`, and the returned metric carries `updated = -1`: the
identity's negative value is returned without any clamp to zero. -/
theorem C2_counterexample_negative_updated :
    Update env2 p2 = .ok ({ Scanned := 1, Updated := -1, Failed := 2 },
      [Call.stop c2s, Call.start c2s]) ∧
    ({ Scanned := 1, Updated := -1, Failed := 2 } : Metric).Updated < 0 :=
  ⟨rfl, by decide⟩

/-- C2 as amended: `scanned` and `failed` of a returned metric are
non-negative, but `updated` is the unclamped identity value
`staleCount - (failed - staleCheckFailed)` and may be negative; no clamping
(and no warning) occurs. -/
theorem C2_amended_counters (env : Env) (params : UpdateParams) (m : Metric)
    (trace : List Call) (h : Update env params = .ok (m, trace)) :
    0 ≤ m.Scanned ∧ 0 ≤ m.Failed ∧
    (∀ cs : List Container, env.listContainers = .ok cs →
      m.Updated = (staleCountOf env params cs : Int)
        - (m.Failed - (staleCheckFailedOf env params cs : Int))) := by
  obtain ⟨cs, sorted, hl, hs, hsc, hf, hu, ht⟩ := update_ok_elim h
  refine ⟨by rw [hsc]; exact Int.natCast_nonneg _, ?_, ?_⟩
  · rw [hf]
    have h1 := Int.natCast_nonneg ((classifyAll env params cs).2.2)
    have h2 := Int.natCast_nonneg
      ((restartPhase env params (updateTargets params sorted)).1)
    omega
  · intro cs' hl'
    exact update_identity_helper hl' h

/-- Witness for C2 as amended, at the very pass of the counterexample: the
returned `scanned` is non-negative. -/
theorem C2_amended_counters_witness :
    (0 : Int) ≤ ({ Scanned := 1, Updated := -1, Failed := 2 } : Metric).Scanned :=
  (C2_amended_counters env2 p2 { Scanned := 1, Updated := -1, Failed := 2 }
    [Call.stop c2s, Call.start c2s] rfl).1

end Watchtower

namespace Watchtower

/-- The calls `stopStaleContainer` records, in closed form: nothing for the
watchtower container, a non-to-restart container or a failed pre-update hook,
and otherwise exactly the stop of the container. -/
theorem stopStale_trace_eq (env : Env) (params : UpdateParams) (c : Container) :
    (stopStaleContainer env params c).2 =
      if c.isWatchtower || !c.ToRestart
         || (params.lifecycleHooks && !exceptOk (env.preUpdate c))
      then [] else [Call.stop c] := by
  unfold stopStaleContainer
  by_cases hw : c.isWatchtower = true <;>
    by_cases hr : c.ToRestart = true <;>
      by_cases hl : params.lifecycleHooks = true <;>
        cases hpre : env.preUpdate c <;>
          cases hst : env.stopContainer c <;>
            simp [hw, hr, hl, hpre, hst, exceptOk]

/-- Every call `stopStaleContainer` records is a stop of its container, and
only a to-restart container is ever stopped. -/
theorem stopStale_trace {env : Env} {params : UpdateParams} {c : Container}
    {x : Call} (hx : x ∈ (stopStaleContainer env params c).2) :
    x = Call.stop c ∧ c.ToRestart = true := by
  rw [stopStale_trace_eq] at hx
  split at hx
  · simp at hx
  next hcond =>
    rw [List.mem_singleton] at hx
    cases hr : c.ToRestart with
    | true => exact ⟨hx, rfl⟩
    | false => exact absurd (by simp [hr]) hcond

/-- The calls `restartStaleContainer` records, in closed form: the rename for
the watchtower container, then — unless the rename failed or `noRestart` is
set — the start. -/
theorem restartStale_trace_eq (env : Env) (params : UpdateParams)
    (c : Container) :
    (restartStaleContainer env params c).2 =
      (if c.isWatchtower then [Call.rename c] else []) ++
      (if c.isWatchtower && !exceptOk (env.renameContainer c) then []
       else if params.noRestart then [] else [Call.start c]) := by
  unfold restartStaleContainer
  by_cases hw : c.isWatchtower = true <;>
    cases hren : env.renameContainer c <;>
      by_cases hnr : params.noRestart = true <;>
        cases hst : env.startContainer c <;>
          simp [hw, hnr, hren, hst, exceptOk]

/-- Every call `restartStaleContainer` records is a rename or a start of its
container. -/
theorem restartStale_trace {env : Env} {params : UpdateParams} {c : Container}
    {x : Call} (hx : x ∈ (restartStaleContainer env params c).2) :
    x = Call.rename c ∨ x = Call.start c := by
  rw [restartStale_trace_eq] at hx
  rcases List.mem_append.1 hx with h | h
  · split at h
    · rw [List.mem_singleton] at h
      exact Or.inl h
    · simp at h
  · split at h
    · simp at h
    · split at h
      · simp at h
      · rw [List.mem_singleton] at h
        exact Or.inr h

/-- When the container is not the watchtower instance and `noRestart` is
unset, the restart step always attempts a start, whatever the outcome. -/
theorem restartStale_start {env : Env} {params : UpdateParams} {c : Container}
    (hw : c.isWatchtower = false) (hnr : params.noRestart = false) :
    Call.start c ∈ (restartStaleContainer env params c).2 := by
  rw [restartStale_trace_eq]
  simp [hw, hnr]

/-- Every call `cleanupImages` makes removes one of the collected IDs. -/
theorem cleanupImages_trace {ids : List String} {x : Call}
    (hx : x ∈ cleanupImages ids) :
    ∃ id, id ∈ ids ∧ x = Call.removeImage id := by
  unfold cleanupImages at hx
  rcases List.mem_map.1 hx with ⟨id, hid, he⟩
  exact ⟨id, List.mem_dedup.1 hid, he.symm⟩

/-- Function `cleanupImages` removes an ID exactly when it was collected. -/
theorem cleanupImages_mem {ids : List String} {id : String} :
    Call.removeImage id ∈ cleanupImages ids ↔ id ∈ ids := by
  unfold cleanupImages
  constructor
  · intro h
    rcases List.mem_map.1 h with ⟨i, hi, he⟩
    injection he with h2
    subst h2
    exact List.mem_dedup.1 hi
  · intro h
    exact List.mem_map.2 ⟨id, List.mem_dedup.2 h, rfl⟩

end Watchtower

namespace Watchtower

/-- Every call recorded by the rolling loop is a stop, rename or start of a
to-restart container of the iterated list. -/
theorem rollingLoop_trace {env : Env} {params : UpdateParams} :
    ∀ {L : List Container} {x : Call}, x ∈ (rollingLoop env params L).2.1 →
    ∃ c, c ∈ L ∧ c.ToRestart = true ∧
      (x = Call.stop c ∨ x = Call.rename c ∨ x = Call.start c) := by
  intro L
  induction L with
  | nil => intro x hx; simp [rollingLoop] at hx
  | cons c rest ih =>
    intro x hx
    by_cases hr : c.ToRestart = true
    · simp only [rollingLoop, hr, if_true] at hx
      rcases List.mem_append.1 hx with h1 | h2
      · rcases List.mem_append.1 h1 with h3 | h4
        · exact ⟨c, List.mem_cons_self c rest, hr, Or.inl (stopStale_trace h3).1⟩
        · rcases restartStale_trace h4 with h | h
          · exact ⟨c, List.mem_cons_self c rest, hr, Or.inr (Or.inl h)⟩
          · exact ⟨c, List.mem_cons_self c rest, hr, Or.inr (Or.inr h)⟩
      · rcases ih h2 with ⟨c', hc', hr', hx'⟩
        exact ⟨c', List.mem_cons_of_mem c hc', hr', hx'⟩
    · simp only [rollingLoop, hr, if_false, Bool.false_eq_true] at hx
      rcases ih hx with ⟨c', hc', hr', hx'⟩
      exact ⟨c', List.mem_cons_of_mem c hc', hr', hx'⟩

/-- The IDs the rolling loop collects are exactly the image IDs of the
to-restart containers of the iterated list. -/
theorem rollingLoop_ids {env : Env} {params : UpdateParams} :
    ∀ {L : List Container} {id : String},
    id ∈ (rollingLoop env params L).2.2 ↔
      ∃ c, c ∈ L ∧ c.ToRestart = true ∧ c.imageID = id := by
  intro L
  induction L with
  | nil => intro id; simp [rollingLoop]
  | cons c rest ih =>
    intro id
    by_cases hr : c.ToRestart = true
    · simp only [rollingLoop, hr, if_true, List.mem_cons]
      constructor
      · intro h
        rcases h with h | h
        · exact ⟨c, Or.inl rfl, hr, h.symm⟩
        · rcases ih.1 h with ⟨c', hc', hr', hid⟩
          exact ⟨c', Or.inr hc', hr', hid⟩
      · rintro ⟨c', hc', hr', hid⟩
        rcases hc' with h | h
        · subst h; exact Or.inl hid.symm
        · exact Or.inr (ih.2 ⟨c', h, hr', hid⟩)
    · simp only [rollingLoop, hr, if_false, Bool.false_eq_true, List.mem_cons]
      constructor
      · intro h
        rcases ih.1 h with ⟨c', hc', hr', hid⟩
        exact ⟨c', Or.inr hc', hr', hid⟩
      · rintro ⟨c', hc', hr', hid⟩
        rcases hc' with h | h
        · subst h; exact absurd hr' hr
        · exact ih.2 ⟨c', h, hr', hid⟩

/-- The rolling loop attempts a start on every to-restart, non-watchtower
container of the iterated list when `noRestart` is unset — whatever the
outcome of the preceding stop. -/
theorem rollingLoop_start {env : Env} {params : UpdateParams}
    {c : Container} (hr : c.ToRestart = true) (hw : c.isWatchtower = false)
    (hnr : params.noRestart = false) :
    ∀ {L : List Container}, c ∈ L →
      Call.start c ∈ (rollingLoop env params L).2.1 := by
  intro L
  induction L with
  | nil => intro hc; simp at hc
  | cons a rest ih =>
    intro hc
    rcases List.mem_cons.1 hc with h | h
    · subst h
      simp only [rollingLoop, hr, if_true]
      exact List.mem_append.2 (Or.inl (List.mem_append.2
        (Or.inr (restartStale_start hw hnr))))
    · by_cases ha : a.ToRestart = true
      · simp only [rollingLoop, ha, if_true]
        exact List.mem_append.2 (Or.inr (ih h))
      · simp only [rollingLoop, ha, if_false, Bool.false_eq_true]
        exact ih h

/-- Every call recorded by the stop loop is a stop of a to-restart container
of the iterated list. -/
theorem stopLoop_trace {env : Env} {params : UpdateParams} :
    ∀ {L : List Container} {x : Call}, x ∈ (stopLoop env params L).2 →
    ∃ c, c ∈ L ∧ c.ToRestart = true ∧ x = Call.stop c := by
  intro L
  induction L with
  | nil => intro x hx; simp [stopLoop] at hx
  | cons c rest ih =>
    intro x hx
    simp only [stopLoop] at hx
    rcases List.mem_append.1 hx with h1 | h2
    · obtain ⟨he, hr⟩ := stopStale_trace h1
      exact ⟨c, List.mem_cons_self c rest, hr, he⟩
    · rcases ih h2 with ⟨c', hc', hr', hx'⟩
      exact ⟨c', List.mem_cons_of_mem c hc', hr', hx'⟩

/-- Every call recorded by the restart loop is a rename or start of a
to-restart container of the iterated list. -/
theorem restartLoop_trace {env : Env} {params : UpdateParams} :
    ∀ {L : List Container} {x : Call}, x ∈ (restartLoop env params L).2.1 →
    ∃ c, c ∈ L ∧ c.ToRestart = true ∧
      (x = Call.rename c ∨ x = Call.start c) := by
  intro L
  induction L with
  | nil => intro x hx; simp [restartLoop] at hx
  | cons c rest ih =>
    intro x hx
    by_cases hr : c.ToRestart = true
    · simp only [restartLoop, hr, if_true] at hx
      rcases List.mem_append.1 hx with h1 | h2
      · exact ⟨c, List.mem_cons_self c rest, hr, restartStale_trace h1⟩
      · rcases ih h2 with ⟨c', hc', hr', hx'⟩
        exact ⟨c', List.mem_cons_of_mem c hc', hr', hx'⟩
    · simp only [restartLoop, hr, if_false, Bool.false_eq_true] at hx
      rcases ih hx with ⟨c', hc', hr', hx'⟩
      exact ⟨c', List.mem_cons_of_mem c hc', hr', hx'⟩

/-- The IDs the restart loop collects are exactly the image IDs of the
to-restart containers of the iterated list. -/
theorem restartLoop_ids {env : Env} {params : UpdateParams} :
    ∀ {L : List Container} {id : String},
    id ∈ (restartLoop env params L).2.2 ↔
      ∃ c, c ∈ L ∧ c.ToRestart = true ∧ c.imageID = id := by
  intro L
  induction L with
  | nil => intro id; simp [restartLoop]
  | cons c rest ih =>
    intro id
    by_cases hr : c.ToRestart = true
    · simp only [restartLoop, hr, if_true, List.mem_cons]
      constructor
      · intro h
        rcases h with h | h
        · exact ⟨c, Or.inl rfl, hr, h.symm⟩
        · rcases ih.1 h with ⟨c', hc', hr', hid⟩
          exact ⟨c', Or.inr hc', hr', hid⟩
      · rintro ⟨c', hc', hr', hid⟩
        rcases hc' with h | h
        · subst h; exact Or.inl hid.symm
        · exact Or.inr (ih.2 ⟨c', h, hr', hid⟩)
    · simp only [restartLoop, hr, if_false, Bool.false_eq_true, List.mem_cons]
      constructor
      · intro h
        rcases ih.1 h with ⟨c', hc', hr', hid⟩
        exact ⟨c', Or.inr hc', hr', hid⟩
      · rintro ⟨c', hc', hr', hid⟩
        rcases hc' with h | h
        · subst h; exact absurd hr' hr
        · exact ih.2 ⟨c', h, hr', hid⟩

/-- The restart loop attempts a start on every to-restart, non-watchtower
container of the iterated list when `noRestart` is unset. -/
theorem restartLoop_start {env : Env} {params : UpdateParams}
    {c : Container} (hr : c.ToRestart = true) (hw : c.isWatchtower = false)
    (hnr : params.noRestart = false) :
    ∀ {L : List Container}, c ∈ L →
      Call.start c ∈ (restartLoop env params L).2.1 := by
  intro L
  induction L with
  | nil => intro hc; simp at hc
  | cons a rest ih =>
    intro hc
    rcases List.mem_cons.1 hc with h | h
    · subst h
      simp only [restartLoop, hr, if_true]
      exact List.mem_append.2 (Or.inl (restartStale_start hw hnr))
    · by_cases ha : a.ToRestart = true
      · simp only [restartLoop, ha, if_true]
        exact List.mem_append.2 (Or.inr (ih h))
      · simp only [restartLoop, ha, if_false, Bool.false_eq_true]
        exact ih h

end Watchtower

namespace Watchtower

/-- Every call of a rolling restart is a stop, rename or start of a
to-restart container of the list, or — only with `cleanup` set — the removal
of the image of one such container. -/
theorem performRolling_trace {env : Env} {params : UpdateParams}
    {L : List Container} {x : Call}
    (hx : x ∈ (performRollingRestart env params L).2) :
    (∃ c, c ∈ L ∧ c.ToRestart = true ∧
      (x = Call.stop c ∨ x = Call.rename c ∨ x = Call.start c)) ∨
    (params.cleanup = true ∧ ∃ c, c ∈ L ∧ c.ToRestart = true ∧
      x = Call.removeImage c.imageID) := by
  unfold performRollingRestart at hx
  have main : x ∈ (rollingLoop env params L.reverse).2.1 →
      (∃ c, c ∈ L ∧ c.ToRestart = true ∧
        (x = Call.stop c ∨ x = Call.rename c ∨ x = Call.start c)) := by
    intro h
    rcases rollingLoop_trace h with ⟨c, hc, hr, he⟩
    exact ⟨c, List.mem_reverse.1 hc, hr, he⟩
  by_cases hcl : params.cleanup = true
  · simp only [hcl, if_true] at hx
    rcases List.mem_append.1 hx with h | h
    · exact Or.inl (main h)
    · rcases cleanupImages_trace h with ⟨id, hid, he⟩
      rcases rollingLoop_ids.1 hid with ⟨c, hc, hr, hcid⟩
      exact Or.inr ⟨hcl, c, List.mem_reverse.1 hc, hr, by rw [he, hcid]⟩
  · simp only [hcl, if_false, Bool.false_eq_true] at hx
    exact Or.inl (main hx)

/-- A rolling restart removes an image exactly when `cleanup` is set and the
image backs a to-restart container of the list. -/
theorem performRolling_removeImage {env : Env} {params : UpdateParams}
    {L : List Container} {id : String} :
    Call.removeImage id ∈ (performRollingRestart env params L).2 ↔
      params.cleanup = true ∧
        ∃ c, c ∈ L ∧ c.ToRestart = true ∧ c.imageID = id := by
  unfold performRollingRestart
  constructor
  · intro hx
    by_cases hcl : params.cleanup = true
    · simp only [hcl, if_true] at hx
      rcases List.mem_append.1 hx with h | h
      · rcases rollingLoop_trace h with ⟨c, _, _, he⟩
        rcases he with h' | h' | h' <;> exact absurd h' (by simp)
      · rcases cleanupImages_mem.1 h with hid
        rcases rollingLoop_ids.1 hid with ⟨c, hc, hr, hcid⟩
        exact ⟨hcl, c, List.mem_reverse.1 hc, hr, hcid⟩
    · simp only [hcl, if_false, Bool.false_eq_true] at hx
      rcases rollingLoop_trace hx with ⟨c, _, _, he⟩
      rcases he with h' | h' | h' <;> exact absurd h' (by simp)
  · rintro ⟨hcl, c, hc, hr, hcid⟩
    simp only [hcl, if_true]
    refine List.mem_append.2 (Or.inr (cleanupImages_mem.2 ?_))
    exact rollingLoop_ids.2 ⟨c, List.mem_reverse.2 hc, hr, hcid⟩

/-- Every call of `restartContainersInSortedOrder` is a rename or start of a
to-restart container, or — only with `cleanup` — the removal of the image of
one such container. -/
theorem restartSorted_trace {env : Env} {params : UpdateParams}
    {L : List Container} {x : Call}
    (hx : x ∈ (restartContainersInSortedOrder env params L).2) :
    (∃ c, c ∈ L ∧ c.ToRestart = true ∧
      (x = Call.rename c ∨ x = Call.start c)) ∨
    (params.cleanup = true ∧ ∃ c, c ∈ L ∧ c.ToRestart = true ∧
      x = Call.removeImage c.imageID) := by
  unfold restartContainersInSortedOrder at hx
  by_cases hcl : params.cleanup = true
  · simp only [hcl, if_true] at hx
    rcases List.mem_append.1 hx with h | h
    · exact Or.inl (restartLoop_trace h)
    · rcases cleanupImages_trace h with ⟨id, hid, he⟩
      rcases restartLoop_ids.1 hid with ⟨c, hc, hr, hcid⟩
      exact Or.inr ⟨hcl, c, hc, hr, by rw [he, hcid]⟩
  · simp only [hcl, if_false, Bool.false_eq_true] at hx
    exact Or.inl (restartLoop_trace hx)

/-- Function `restartContainersInSortedOrder` removes an image exactly when `cleanup`
is set and the image backs a to-restart container of the list. -/
theorem restartSorted_removeImage {env : Env} {params : UpdateParams}
    {L : List Container} {id : String} :
    Call.removeImage id ∈ (restartContainersInSortedOrder env params L).2 ↔
      params.cleanup = true ∧
        ∃ c, c ∈ L ∧ c.ToRestart = true ∧ c.imageID = id := by
  unfold restartContainersInSortedOrder
  constructor
  · intro hx
    by_cases hcl : params.cleanup = true
    · simp only [hcl, if_true] at hx
      rcases List.mem_append.1 hx with h | h
      · rcases restartLoop_trace h with ⟨c, _, _, he⟩
        rcases he with h' | h' <;> exact absurd h' (by simp)
      · exact ⟨hcl, restartLoop_ids.1 (cleanupImages_mem.1 h)⟩
    · simp only [hcl, if_false, Bool.false_eq_true] at hx
      rcases restartLoop_trace hx with ⟨c, _, _, he⟩
      rcases he with h' | h' <;> exact absurd h' (by simp)
  · rintro ⟨hcl, c, hc, hr, hcid⟩
    simp only [hcl, if_true]
    refine List.mem_append.2 (Or.inr (cleanupImages_mem.2 ?_))
    exact restartLoop_ids.2 ⟨c, hc, hr, hcid⟩

/-- Every call of the restart phase (either strategy) is a stop, rename or
start of a to-restart container of the target list, or — only with `cleanup`
— the removal of the image of one such container. -/
theorem restartPhase_trace {env : Env} {params : UpdateParams}
    {L : List Container} {x : Call}
    (hx : x ∈ (restartPhase env params L).2) :
    (∃ c, c ∈ L ∧ c.ToRestart = true ∧
      (x = Call.stop c ∨ x = Call.rename c ∨ x = Call.start c)) ∨
    (params.cleanup = true ∧ ∃ c, c ∈ L ∧ c.ToRestart = true ∧
      x = Call.removeImage c.imageID) := by
  unfold restartPhase at hx
  by_cases hroll : params.rollingRestart = true
  · simp only [hroll, if_true] at hx
    exact performRolling_trace hx
  · simp only [hroll, if_false, Bool.false_eq_true] at hx
    rcases List.mem_append.1 hx with h | h
    · unfold stopContainersInReversedOrder at h
      rcases stopLoop_trace h with ⟨c, hc, hr, he⟩
      exact Or.inl ⟨c, List.mem_reverse.1 hc, hr, Or.inl he⟩
    · rcases restartSorted_trace h with ⟨c, hc, hr, he⟩ | ⟨hcl, c, hc, hr, he⟩
      · exact Or.inl ⟨c, hc, hr, Or.inr he⟩
      · exact Or.inr ⟨hcl, c, hc, hr, he⟩

/-- The restart phase (either strategy) removes an image exactly when
`cleanup` is set and the image backs a to-restart container of the target
list. -/
theorem restartPhase_removeImage {env : Env} {params : UpdateParams}
    {L : List Container} {id : String} :
    Call.removeImage id ∈ (restartPhase env params L).2 ↔
      params.cleanup = true ∧
        ∃ c, c ∈ L ∧ c.ToRestart = true ∧ c.imageID = id := by
  unfold restartPhase
  by_cases hroll : params.rollingRestart = true
  · simp only [hroll, if_true]
    exact performRolling_removeImage
  · simp only [hroll, if_false, Bool.false_eq_true]
    constructor
    · intro hx
      rcases List.mem_append.1 hx with h | h
      · unfold stopContainersInReversedOrder at h
        rcases stopLoop_trace h with ⟨c, _, _, he⟩
        exact absurd he (by simp)
      · exact restartSorted_removeImage.1 h
    · intro h
      exact List.mem_append.2 (Or.inr (restartSorted_removeImage.2 h))

/-- The restart phase (either strategy) attempts a start on every to-restart,
non-watchtower container of the target list when `noRestart` is unset. -/
theorem restartPhase_start {env : Env} {params : UpdateParams}
    {L : List Container} {c : Container} (hc : c ∈ L)
    (hr : c.ToRestart = true) (hw : c.isWatchtower = false)
    (hnr : params.noRestart = false) :
    Call.start c ∈ (restartPhase env params L).2 := by
  unfold restartPhase
  by_cases hroll : params.rollingRestart = true
  · simp only [hroll, if_true]
    unfold performRollingRestart
    have hs : Call.start c ∈ (rollingLoop env params L.reverse).2.1 :=
      rollingLoop_start hr hw hnr (List.mem_reverse.2 hc)
    by_cases hcl : params.cleanup = true
    · simp only [hcl, if_true]
      exact List.mem_append.2 (Or.inl hs)
    · simp only [hcl, if_false, Bool.false_eq_true]
      exact hs
  · simp only [hroll, if_false, Bool.false_eq_true]
    refine List.mem_append.2 (Or.inr ?_)
    unfold restartContainersInSortedOrder
    have hs : Call.start c ∈ (restartLoop env params L).2.1 :=
      restartLoop_start hr hw hnr hc
    by_cases hcl : params.cleanup = true
    · simp only [hcl, if_true]
      exact List.mem_append.2 (Or.inl hs)
    · simp only [hcl, if_false, Bool.false_eq_true]
      exact hs

/-- A container of the target list is never monitor-only, and the target list
is empty on a monitor-only pass. -/
theorem updateTargets_mem {params : UpdateParams} {sorted : List Container}
    {c : Container} (hc : c ∈ updateTargets params sorted) :
    c.isMonitorOnly = false ∧ params.monitorOnly = false := by
  unfold updateTargets checkDependencies at hc
  by_cases hm : params.monitorOnly = true
  · simp [hm] at hc
  · simp only [Bool.not_eq_true] at hm
    simp only [hm, Bool.false_eq_true, if_false] at hc
    refine ⟨?_, hm⟩
    have := (List.mem_filter.1 hc).2
    simpa using this

end Watchtower

namespace Watchtower

/-- C5: no container with `isMonitorOnly = true` is ever passed to the
client's stop or start, and on a monitor-only pass no container is passed to
stop or start at all: every stop or start call of a completed pass carries a
container from the filtered target list, which excludes monitor-only
containers and is empty when the pass-wide option is set. -/
theorem C5_monitor_only_untouched (env : Env) (params : UpdateParams)
    (m : Metric) (trace : List Call) (c : Container)
    (h : Update env params = .ok (m, trace))
    (hx : Call.stop c ∈ trace ∨ Call.start c ∈ trace) :
    c.isMonitorOnly = false ∧ params.monitorOnly = false := by
  obtain ⟨cs, sorted, hl, hs, _, _, _, ht⟩ := update_ok_elim h
  subst ht
  have hmem : ∃ c', c' ∈ updateTargets params sorted ∧ c = c' := by
    rcases hx with hx | hx
    · rcases restartPhase_trace hx with ⟨c', hc', _, he⟩ | ⟨_, c', _, _, he⟩
      · rcases he with h' | h' | h'
        · exact ⟨c', hc', by injection h'⟩
        · exact absurd h' (by simp)
        · exact absurd h' (by simp)
      · exact absurd he (by simp)
    · rcases restartPhase_trace hx with ⟨c', hc', _, he⟩ | ⟨_, c', _, _, he⟩
      · rcases he with h' | h' | h'
        · exact absurd h' (by simp)
        · exact absurd h' (by simp)
        · exact ⟨c', hc', by injection h'⟩
      · exact absurd he (by simp)
  rcases hmem with ⟨c', hc', he⟩
  subst he
  exact updateTargets_mem hc'

/-- The container of the C5 witness pass, as listed. -/
def c5a : Container :=
  { name := "A", imageID := "imgA", links := [], isMonitorOnly := false,
    isWatchtower := false, Stale := false, LinkedToRestarting := false }

/-- The C5 witness container after classification marked it stale. -/
def c5s : Container :=
  { c5a with Stale := true }

/-- Environment for the C5 witness: one stale container, every call
succeeding. -/
def env5 : Env :=
  { listContainers := .ok [c5a],
    isContainerStale := fun _ => .ok true,
    verifyConfiguration := fun _ => .ok (),
    stopContainer := fun _ => .ok (),
    startContainer := fun _ => .ok "new",
    renameContainer := fun _ => .ok (),
    preUpdate := fun _ => .ok (),
    sortByDependencies := fun l => .ok l }

/-- Two-phase default parameters for the C5 witness. -/
def p5 : UpdateParams :=
  { noRestart := false, monitorOnly := false, rollingRestart := false,
    cleanup := false, lifecycleHooks := false }

/-- Witness for C5: the container actually stopped in a concrete pass is not
monitor-only, on a pass that is not monitor-only. -/
theorem C5_monitor_only_untouched_witness :
    c5s.isMonitorOnly = false ∧ p5.monitorOnly = false :=
  C5_monitor_only_untouched env5 p5
    { Scanned := 1, Updated := 1, Failed := 0 }
    [Call.stop c5s, Call.start c5s] c5s rfl
    (Or.inl (List.mem_cons_self _ _))

/-- C4 as amended: a stop error is counted into `failed`, but it does not
abort further work for that container: the restart step still runs for it in
both strategies, and a start is attempted whenever `noRestart` is unset and
the container is not the watchtower instance. -/
theorem C4_amended_start_attempted (env : Env) (params : UpdateParams)
    (cs sorted : List Container) (m : Metric) (trace : List Call)
    (c : Container)
    (hl : env.listContainers = .ok cs)
    (hs : env.sortByDependencies (classifyAll env params cs).1 = .ok sorted)
    (h : Update env params = .ok (m, trace))
    (hc : c ∈ updateTargets params sorted)
    (hr : c.ToRestart = true)
    (hw : c.isWatchtower = false)
    (_hstop : exceptOk (env.stopContainer c) = false)
    (hnr : params.noRestart = false) :
    Call.start c ∈ trace := by
  obtain ⟨cs', sorted', hl', hs', _, _, _, ht⟩ := update_ok_elim h
  rw [hl] at hl'
  injection hl' with e1
  subst e1
  rw [hs] at hs'
  injection hs' with e2
  subst e2
  subst ht
  exact restartPhase_start hc hr hw hnr

/-- The container of the C4 pass, as listed. -/
def c4a : Container :=
  { name := "A", imageID := "imgA", links := [], isMonitorOnly := false,
    isWatchtower := false, Stale := false, LinkedToRestarting := false }

/-- The C4 container after classification marked it stale. -/
def c4s : Container :=
  { c4a with Stale := true }

/-- Environment for C4: one stale container whose stop fails and whose start
succeeds. -/
def env4 : Env :=
  { listContainers := .ok [c4a],
    isContainerStale := fun _ => .ok true,
    verifyConfiguration := fun _ => .ok (),
    stopContainer := fun _ => .error "stop failed",
    startContainer := fun _ => .ok "new",
    renameContainer := fun _ => .ok (),
    preUpdate := fun _ => .ok (),
    sortByDependencies := fun l => .ok l }

/-- Rolling-restart parameters for C4. -/
def p4 : UpdateParams :=
  { noRestart := false, monitorOnly := false, rollingRestart := true,
    cleanup := false, lifecycleHooks := false }

/-- Counterexample to C4: in a rolling pass, the stop of the stale container
errors (and is counted failed once), yet a start is still attempted on that
very container in the same pass. -/
theorem C4_counterexample_start_after_stop_error :
    exceptOk (env4.stopContainer c4s) = false ∧
    Update env4 p4 = .ok ({ Scanned := 1, Updated := 0, Failed := 1 },
      [Call.stop c4s, Call.start c4s]) ∧
    Call.start c4s ∈ [Call.stop c4s, Call.start c4s] :=
  ⟨rfl, rfl, List.mem_cons_of_mem _ (List.mem_cons_self _ _)⟩

/-- Witness for C4 as amended, at the counterexample pass: the start call on
the stop-errored container is in the trace. -/
theorem C4_amended_start_attempted_witness :
    Call.start c4s ∈ [Call.stop c4s, Call.start c4s] :=
  C4_amended_start_attempted env4 p4 [c4a] [c4s]
    { Scanned := 1, Updated := 0, Failed := 1 }
    [Call.stop c4s, Call.start c4s] c4s rfl rfl rfl
    (by decide) rfl rfl rfl rfl

/-- C7 as amended: `removeImage` is called only when `cleanup` is set, and
the set of image IDs passed to it is exactly the set of image IDs of the
to-restart containers of the target list — the containers whose restart step
ran, which includes containers on which no start was attempted (when
`noRestart` is set, or when the watchtower self-rename fails). -/
theorem C7_amended_removeImage_set (env : Env) (params : UpdateParams)
    (cs sorted : List Container) (m : Metric) (trace : List Call)
    (id : String)
    (hl : env.listContainers = .ok cs)
    (hs : env.sortByDependencies (classifyAll env params cs).1 = .ok sorted)
    (h : Update env params = .ok (m, trace)) :
    Call.removeImage id ∈ trace ↔
      params.cleanup = true ∧
        ∃ c, c ∈ updateTargets params sorted ∧ c.ToRestart = true ∧
          c.imageID = id := by
  obtain ⟨cs', sorted', hl', hs', _, _, _, ht⟩ := update_ok_elim h
  rw [hl] at hl'
  injection hl' with e1
  subst e1
  rw [hs] at hs'
  injection hs' with e2
  subst e2
  subst ht
  exact restartPhase_removeImage

/-- Does a recorded call start a container? -/
def isStartCall : Call → Bool
  | Call.start _ => true
  | _ => false

/-- The container of the C7 pass, as listed. -/
def c7a : Container :=
  { name := "A", imageID := "imgA", links := [], isMonitorOnly := false,
    isWatchtower := false, Stale := false, LinkedToRestarting := false }

/-- The C7 container after classification marked it stale. -/
def c7s : Container :=
  { c7a with Stale := true }

/-- Environment for C7: one stale container, every call succeeding. -/
def env7 : Env :=
  { listContainers := .ok [c7a],
    isContainerStale := fun _ => .ok true,
    verifyConfiguration := fun _ => .ok (),
    stopContainer := fun _ => .ok (),
    startContainer := fun _ => .ok "new",
    renameContainer := fun _ => .ok (),
    preUpdate := fun _ => .ok (),
    sortByDependencies := fun l => .ok l }

/-- Parameters for C7: `noRestart` and `cleanup` both set, two-phase. -/
def p7 : UpdateParams :=
  { noRestart := true, monitorOnly := false, rollingRestart := false,
    cleanup := true, lifecycleHooks := false }

/-- Counterexample to C7: with `noRestart` and `cleanup` both set, the pass
stops the stale container, attempts no start at all, and still passes the
container's image ID to `removeImage` — so the removed set is not the set of
image IDs of containers on which a start was attempted. -/
theorem C7_counterexample_remove_without_start :
    Update env7 p7 = .ok ({ Scanned := 1, Updated := 1, Failed := 0 },
      [Call.stop c7s, Call.removeImage "imgA"]) ∧
    ([Call.stop c7s, Call.removeImage "imgA"].any isStartCall) = false ∧
    p7.cleanup = true :=
  ⟨rfl, rfl, rfl⟩

/-- Witness for C7 as amended, at the counterexample pass: the stale
container's image is removed. -/
theorem C7_amended_removeImage_set_witness :
    Call.removeImage "imgA" ∈ [Call.stop c7s, Call.removeImage "imgA"] :=
  (C7_amended_removeImage_set env7 p7 [c7a] [c7s]
      { Scanned := 1, Updated := 1, Failed := 0 }
      [Call.stop c7s, Call.removeImage "imgA"] "imgA" rfl rfl rfl).2
    ⟨rfl, c7s, by decide, rfl, rfl⟩

/-- C8 as amended: a list error aborts the pass with that error and no
metric, and a sort error (a reported cycle) likewise aborts the pass with
that error and no metric — the in-progress metric that recorded the
post-sort length in `scanned` is discarded, not returned. -/
theorem C8_amended_fatal_no_metric (env : Env) (params : UpdateParams) :
    (∀ e, env.listContainers = .error e → Update env params = .error e) ∧
    (∀ cs e, env.listContainers = .ok cs →
      env.sortByDependencies (classifyAll env params cs).1 = .error e →
      Update env params = .error e) := by
  constructor
  · intro e he
    simp only [Update, he]
  · intro cs e hl hs
    simp only [Update, hl, hs]

/-- The container of the C8 pass, as listed. -/
def c8a : Container :=
  { name := "A", imageID := "imgA", links := [], isMonitorOnly := false,
    isWatchtower := false, Stale := false, LinkedToRestarting := false }

/-- Environment for C8: the dependency sorter reports a cycle. -/
def env8 : Env :=
  { listContainers := .ok [c8a],
    isContainerStale := fun _ => .ok false,
    verifyConfiguration := fun _ => .ok (),
    stopContainer := fun _ => .ok (),
    startContainer := fun _ => .ok "new",
    renameContainer := fun _ => .ok (),
    preUpdate := fun _ => .ok (),
    sortByDependencies := fun _ => .error "circular reference" }

/-- Default parameters for C8. -/
def p8 : UpdateParams :=
  { noRestart := false, monitorOnly := false, rollingRestart := false,
    cleanup := false, lifecycleHooks := false }

/-- Counterexample to C8: when the sort reports a cycle, `Update` returns
the error and no metric at all — there is no returned metric whose `scanned`
field could be set to the post-sort container count. -/
theorem C8_counterexample_no_metric_on_sort_error :
    Update env8 p8 = .error "circular reference" ∧
    exceptOk (Update env8 p8) = false :=
  ⟨rfl, rfl⟩

/-- Witness for C8 as amended: the concrete cycle-reporting pass aborts with
the sorter's error. -/
theorem C8_amended_fatal_no_metric_witness :
    Update env8 p8 = .error "circular reference" :=
  (C8_amended_fatal_no_metric env8 p8).2 [c8a] "circular reference" rfl rfl

/-- The stale container A of the C6 snapshot. -/
def c6a : Container :=
  { name := "A", imageID := "imgA", links := [], isMonitorOnly := false,
    isWatchtower := false, Stale := true, LinkedToRestarting := false }

/-- The non-stale container B of the C6 snapshot, linking A. -/
def c6b : Container :=
  { name := "B", imageID := "imgB", links := ["A"], isMonitorOnly := false,
    isWatchtower := false, Stale := false, LinkedToRestarting := false }

/-- C6 (code bug): on the dependency-sorted snapshot `[A stale, B links A]`,
the iteration-local copy computed by the `checkDependencies` loop body for B
does get `LinkedToRestarting` set — the propagation condition holds — but the
function leaves the snapshot unchanged because the assignment targets the
range copy, so B still satisfies `ToRestart = false` afterwards, against the
claimed equivalence with reachability of a stale container. -/
theorem C6_checkDependencies_discards_propagation :
    checkDependencies [c6a, c6b] = [c6a, c6b] ∧
    c6b.ToRestart = false ∧
    c6a.Stale = true ∧ c6b.links = ["A"] ∧ c6a.name = "A" ∧
    (checkDependenciesCopy [c6a, c6b] c6b).ToRestart = true :=
  ⟨rfl, rfl, rfl, rfl, rfl, rfl⟩

end Watchtower
